import Mathlib

/-!
Verification of the Story_Forge_Final repository (Django story-generation web
application) against its natural-language specification.

The development shallowly embeds the Python source under `src/`:

* `generator/ollama_story_generator.py` — story / description generation with
  Ollama plus template fallbacks;
* `generator/gpu_image_generator.py` — Stable Diffusion image generation with
  PIL placeholder fallbacks, and image composition;
* `generator/models.py` — the `StoryGeneration` model, its `save` override,
  `get_input_text`, and the `story_image_path` upload-path function;
* `generator/views.py` — `GenerateStoryView.post`, `_handle_audio_input` and
  `_generate_enhanced_story_content`;
* `generator/audio_processor.py` — `AudioValidator.validate_audio_file`.

External services (the Ollama HTTP API, the diffusion pipeline, the Whisper
transcriber, file storage and the uuid generator) are modelled as explicit
environment records; PIL images are modelled symbolically as the tree of PIL
operations that produced them, since the claims under scrutiny concern sizes,
positions and data flow rather than pixel rasterisation.
-/

namespace StoryForge

/-! ## Python string primitives -/

/-- Python whitespace for `str.split()` / `str.strip()` (ASCII part):
space, tab, newline, carriage return, form feed, vertical tab. -/
def pySpace (c : Char) : Bool :=
  c = ' ' || c = '\t' || c = '\n' || c = '\r' || c = '\x0c' || c = '\x0b'

/-- Word-counting automaton underlying Python `len(s.split())`:
`inw` records whether the previous character was part of a word. -/
def cwAux : Bool → List Char → Nat
  | _, [] => 0
  | inw, c :: cs =>
    if pySpace c then cwAux false cs
    else (if inw then 0 else 1) + cwAux true cs

/-- `len(s.split())` in Python: the number of maximal runs of
non-whitespace characters. -/
def countWords (s : String) : Nat := cwAux false s.data

/-- `s.strip()` in Python: drop leading and trailing whitespace. -/
def pyStrip (s : String) : String :=
  ⟨((s.data.dropWhile pySpace).reverse.dropWhile pySpace).reverse⟩

/-- List-leading test used to model Python substring search. -/
def listStarts : List Char → List Char → Bool
  | [], _ => true
  | _ :: _, [] => false
  | a :: as, b :: bs => a = b && listStarts as bs

/-- List infix test used to model Python substring search. -/
def listContains (needle : List Char) : List Char → Bool
  | [] => listStarts needle []
  | hay@(_ :: rest) => listStarts needle hay || listContains needle rest

/-- Python `needle in hay` on strings. -/
def pyContains (needle hay : String) : Bool :=
  listContains needle.data hay.data

/-- ASCII lower-casing of one character. -/
def lowerChar (c : Char) : Char :=
  if 65 ≤ c.toNat && c.toNat ≤ 90 then Char.ofNat (c.toNat + 32) else c

/-- Python `s.lower()` (ASCII range, which is all the code relies on). -/
def pyLower (s : String) : String := ⟨s.data.map lowerChar⟩

/-! ## `generator/ollama_story_generator.py` — `OllamaStoryGenerator` -/

/-- Outcome of one `requests.post` to the Ollama `/api/chat` endpoint, as seen
by `_call_ollama`: either the request (or JSON decoding) raised, or a reply
came back with an HTTP status and the extracted `message.content` string. -/
inductive OllamaResp
  | exn
  | reply (status : Nat) (content : String)
  deriving DecidableEq

/-- `OllamaStoryGenerator._call_ollama`.  Returns the reply content stripped
when the status is 200 and the empty string otherwise, paired with the number
of HTTP POSTs issued to the chat endpoint (always exactly one per call). -/
def callOllama (resp : OllamaResp) : String × Nat :=
  match resp with
  | .exn => ("", 1)
  | .reply status content => (if status = 200 then pyStrip content else "", 1)

/-- `OllamaStoryGenerator._get_word_target`. -/
def getWordTarget (length : String) : String :=
  if length = "short" then "300-500"
  else if length = "medium" then "500-1000"
  else if length = "long" then "1000-1500"
  else "500-1000"

/-- First fixed segment of `_generate_fallback_story`, before the first
interpolation of `prompt.lower()`. -/
def fallbackStoryA : String :=
  "In a world of endless possibilities, the adventure began with "

/-- Middle fixed segment of `_generate_fallback_story`, between the two
interpolations of `prompt.lower()`. -/
def fallbackStoryB : String :=
  ". What started as an ordinary moment quickly transformed into something extraordinary that would change everything.\n\nOur protagonist discovered that reality was far more complex and wonderful than they had ever imagined. Each step forward revealed new mysteries, each challenge overcome led to greater revelations, and each friend made along the way added depth to a journey of self-discovery.\n\nThe path was neither straight nor easy. Obstacles that seemed insurmountable became stepping stones to growth. Enemies revealed unexpected depths. Allies emerged from unlikely places, and wisdom came from sources both ancient and new.\n\nAs the journey progressed, our hero learned that true strength comes not from individual prowess, but from connections forged with others. The greatest magic was not in supernatural powers, but in the human ability to hope, persevere, and find light in darkness.\n\nThe resolution was both surprising and inevitable. What began with "

/-- Final fixed segment of `_generate_fallback_story`, after the second
interpolation of `prompt.lower()`. -/
def fallbackStoryC : String :=
  " became a transformation not just of circumstances, but of character. The adventure's end marked a beginning—the start of a life lived with purpose and courage.\n\nAnd so our story concludes, but the ripples would continue to spread, inspiring others to find their own courage and embark on their own journeys of discovery."

/-- `OllamaStoryGenerator._generate_fallback_story`: the fixed template with
`prompt.lower()` interpolated twice. -/
def generateFallbackStory (prompt : String) : String :=
  fallbackStoryA ++ pyLower prompt ++ fallbackStoryB ++ pyLower prompt ++ fallbackStoryC

/-- `OllamaStoryGenerator.generate_story`, instrumented with the number of
HTTP POSTs issued to the Ollama chat endpoint.  `available` is the
generator's `self.available` flag; `resp` is the outcome of the (at most
one) chat call. -/
def generateStoryCounted (available : Bool) (resp : OllamaResp)
    (userPrompt : String) (_length : String) : String × Nat :=
  if !available then (generateFallbackStory userPrompt, 0)
  else
    let r := callOllama resp
    if r.1 ≠ "" && 100 < countWords r.1 then (r.1, r.2)
    else (generateFallbackStory userPrompt, r.2)

/-- `OllamaStoryGenerator.generate_story` (result only). -/
def generateStory (available : Bool) (resp : OllamaResp)
    (userPrompt : String) (length : String) : String :=
  (generateStoryCounted available resp userPrompt length).1

/-- Knight branch of `_fallback_character_description`. -/
def knightCharacterDescription : String :=
  "A determined knight in polished steel armor with a noble bearing, strong jawline, and piercing blue eyes. Wears a deep red cloak and carries an ornate sword."

/-- Wizard branch of `_fallback_character_description`. -/
def wizardCharacterDescription : String :=
  "An ancient wizard with flowing silver robes, long white beard, deep violet eyes, and a tall staff crowned with a glowing crystal orb."

/-- Space branch of `_fallback_character_description`. -/
def spaceCharacterDescription : String :=
  "A confident space explorer in a sleek uniform with integrated technology, sharp features, and advanced equipment."

/-- Default branch of `_fallback_character_description`. -/
def adventurerCharacterDescription : String :=
  "A brave adventurer with an athletic build, practical traveling clothes, and the confident bearing of someone ready for any challenge."

/-- `OllamaStoryGenerator._fallback_character_description`. -/
def fallbackCharacterDescription (story : String) : String :=
  let sl := pyLower story
  if pyContains "knight" sl || pyContains "sword" sl then knightCharacterDescription
  else if pyContains "wizard" sl || pyContains "magic" sl then wizardCharacterDescription
  else if pyContains "space" sl || pyContains "star" sl then spaceCharacterDescription
  else adventurerCharacterDescription

/-- Forest branch of `_fallback_scene_description`. -/
def forestSceneDescription : String :=
  "An ancient enchanted forest with towering oak trees, golden sunlight streaming through emerald canopy, and crystal streams."

/-- Castle branch of `_fallback_scene_description`. -/
def castleSceneDescription : String :=
  "A majestic medieval castle perched on a cliff, with grey stone towers, colorful banners, and warm light from arched windows."

/-- Space branch of `_fallback_scene_description`. -/
def spaceSceneDescription : String :=
  "The infinite vastness of space with countless stars, spectacular nebulae in brilliant colors, and distant spiral galaxies."

/-- Default branch of `_fallback_scene_description`. -/
def landscapeSceneDescription : String :=
  "A breathtaking landscape under a dramatic sunset sky with rolling hills, ancient ruins, and a winding path toward adventure."

/-- `OllamaStoryGenerator._fallback_scene_description`. -/
def fallbackSceneDescription (story : String) : String :=
  let sl := pyLower story
  if pyContains "forest" sl || pyContains "tree" sl then forestSceneDescription
  else if pyContains "castle" sl || pyContains "tower" sl then castleSceneDescription
  else if pyContains "space" sl || pyContains "star" sl then spaceSceneDescription
  else landscapeSceneDescription

/-- `OllamaStoryGenerator.generate_character_description`, instrumented with
the number of HTTP POSTs issued to the Ollama chat endpoint. -/
def generateCharacterDescriptionCounted (available : Bool) (resp : OllamaResp)
    (story : String) : String × Nat :=
  if !available then (fallbackCharacterDescription story, 0)
  else
    let r := callOllama resp
    (if r.1 ≠ "" then r.1 else fallbackCharacterDescription story, r.2)

/-- `OllamaStoryGenerator.generate_character_description` (result only). -/
def generateCharacterDescription (available : Bool) (resp : OllamaResp)
    (story : String) : String :=
  (generateCharacterDescriptionCounted available resp story).1

/-- `OllamaStoryGenerator.generate_scene_description`, instrumented with
the number of HTTP POSTs issued to the Ollama chat endpoint. -/
def generateSceneDescriptionCounted (available : Bool) (resp : OllamaResp)
    (story : String) : String × Nat :=
  if !available then (fallbackSceneDescription story, 0)
  else
    let r := callOllama resp
    (if r.1 ≠ "" then r.1 else fallbackSceneDescription story, r.2)

/-- `OllamaStoryGenerator.generate_scene_description` (result only). -/
def generateSceneDescription (available : Bool) (resp : OllamaResp)
    (story : String) : String :=
  (generateSceneDescriptionCounted available resp story).1

/-! ## Symbolic PIL images

PIL raster contents are not modelled pixel by pixel; an image is the tree of
PIL operations that produced it, which determines its mode, its pixel
dimensions, and (for placeholder images) the exact sequence of drawing
commands the code issues.  All the arithmetic the code performs on sizes,
coordinates and colours is carried out exactly; `int(x * f)` on the
nonnegative exact-binary floats the code uses is natural-number division. -/

/-- 24-bit colour triple. -/
abbrev RGB := Nat × Nat × Nat

/-- One `ImageDraw` command, with the exact arguments the code passes. -/
inductive DrawCmd
  | line (x1 y1 x2 y2 : Nat) (fill : RGB)
  | ellipse (x1 y1 x2 y2 : Nat) (fill : RGB)
  | rectangle (x1 y1 x2 y2 : Nat) (fill : RGB)
  | polygon (pts : List (Nat × Nat)) (fill : RGB)
  | text (x y : Nat) (s : String) (font : String) (fill : RGB)
  | ctext (s : String) (fill : RGB)
  deriving DecidableEq

/-- A PIL image as the tree of operations that produced it.  `diffusion`
records a Stable Diffusion pipeline invocation (prompt, negative prompt,
inference steps, guidance scale in tenths, width, height, seed);
`fromFile` is an image opened from storage with its intrinsic size;
`ctext` in `DrawCmd` is text centred via `textbbox` with the default font. -/
inductive PILImage
  | new (mode : String) (w h : Nat) (color : RGB)
  | fromFile (path : String) (w h : Nat)
  | convert (mode : String) (img : PILImage)
  | resize (w h : Nat) (img : PILImage)
  | paste (overlay : PILImage) (x y : Nat) (base : PILImage)
  | copy (img : PILImage)
  | draw (cmds : List DrawCmd) (img : PILImage)
  | enhance (kind : String) (factorPct : Nat) (img : PILImage)
  | diffusion (prompt negPrompt : String) (steps guidanceTenths w h seed : Nat)
  deriving DecidableEq

/-- Pixel dimensions of a symbolic PIL image (`Image.size`). -/
def PILImage.size : PILImage → Nat × Nat
  | .new _ w h _ => (w, h)
  | .fromFile _ w h => (w, h)
  | .convert _ i => i.size
  | .resize w h _ => (w, h)
  | .paste _ _ _ base => base.size
  | .copy i => i.size
  | .draw _ i => i.size
  | .enhance _ _ i => i.size
  | .diffusion _ _ _ _ w h _ => (w, h)

/-- PNG bytes produced by `img.save(buffer, format='PNG')`, identified with
the image they encode. -/
structure ImageBytes where
  toImage : PILImage
  deriving DecidableEq

/-- Dimensions of the image a PNG byte string encodes. -/
def ImageBytes.size (b : ImageBytes) : Nat × Nat := b.toImage.size

/-! ## `generator/gpu_image_generator.py` — `GPUImageGenerator` -/

/-- `GPUImageGenerator._identify_character_type`. -/
def identifyCharacterType (description : String) : String :=
  let dl := pyLower description
  if pyContains "knight" dl || pyContains "armor" dl || pyContains "sword" dl ||
      pyContains "medieval" dl then "knight"
  else if pyContains "wizard" dl || pyContains "mage" dl || pyContains "magic" dl ||
      pyContains "staff" dl || pyContains "robes" dl then "wizard"
  else if pyContains "space" dl || pyContains "sci-fi" dl || pyContains "futuristic" dl ||
      pyContains "cyberpunk" dl then "space"
  else if pyContains "detective" dl || pyContains "noir" dl ||
      pyContains "investigator" dl then "detective"
  else "adventurer"

/-- `base_prompts` lookup in `_create_enhanced_character_prompt`
(`.get` with the adventurer entry as default). -/
def characterBasePrompt (t : String) : String :=
  if t = "knight" then
    "medieval knight in detailed armor, heroic pose, cinematic lighting, fantasy art, highly detailed, 8k resolution, masterpiece"
  else if t = "wizard" then
    "powerful wizard with magical robes, mystical staff, arcane symbols, fantasy art, dramatic lighting, highly detailed, 8k"
  else if t = "space" then
    "futuristic space explorer, sci-fi uniform, advanced technology, cyberpunk style, detailed, high quality, 8k resolution"
  else if t = "detective" then
    "noir detective, 1940s style, dramatic shadows, film noir lighting, highly detailed portrait, cinematic quality"
  else
    "rugged adventurer, practical gear, outdoor setting, action pose, realistic style, highly detailed, 8k resolution"

/-- `style_modifiers` lookup in `_create_enhanced_character_prompt`
(`.get` with the realistic entry as default). -/
def characterStyleModifier (s : String) : String :=
  if s = "artistic" then
    "digital art, concept art, trending on artstation, painted style, artistic lighting"
  else if s = "fantasy" then
    "fantasy art, magical atmosphere, ethereal lighting, mystical style, enchanted"
  else
    "photorealistic, professional photography, studio lighting, sharp focus, detailed textures"

/-- `GPUImageGenerator._create_enhanced_character_prompt`. -/
def createEnhancedCharacterPrompt (description style : String) : String :=
  characterBasePrompt (identifyCharacterType description) ++ ", " ++ description ++
    ", " ++ characterStyleModifier style

/-- `GPUImageGenerator._identify_setting_type`. -/
def identifySettingType (description : String) : String :=
  let dl := pyLower description
  if pyContains "forest" dl || pyContains "tree" dl || pyContains "woods" dl ||
      pyContains "jungle" dl then "forest"
  else if pyContains "castle" dl || pyContains "fortress" dl || pyContains "tower" dl ||
      pyContains "medieval" dl then "castle"
  else if pyContains "space" dl || pyContains "cosmic" dl || pyContains "galaxy" dl ||
      pyContains "nebula" dl then "space"
  else if pyContains "city" dl || pyContains "urban" dl || pyContains "building" dl ||
      pyContains "street" dl then "city"
  else "mountain"

/-- `base_prompts` lookup in `_create_enhanced_background_prompt`
(`.get` with the mountain entry as default). -/
def backgroundBasePrompt (t : String) : String :=
  if t = "forest" then
    "ancient mystical forest, towering trees, dappled sunlight, moss-covered ground, magical atmosphere, highly detailed landscape, 8k"
  else if t = "castle" then
    "majestic medieval castle, stone towers, dramatic sky, epic landscape, fortress on hill, cinematic composition, 8k resolution"
  else if t = "space" then
    "cosmic space scene, nebula, stars, galaxies, deep space, astronomical photography, highly detailed, 8k resolution"
  else if t = "city" then
    "futuristic cityscape, skyscrapers, neon lights, cyberpunk atmosphere, urban landscape, detailed architecture, 8k"
  else
    "epic mountain landscape, dramatic peaks, golden hour lighting, majestic scenery, nature photography, 8k resolution"

/-- `style_modifiers` lookup in `_create_enhanced_background_prompt`
(`.get` with the realistic entry as default). -/
def backgroundStyleModifier (s : String) : String :=
  if s = "artistic" then
    "digital matte painting, concept art, artistic interpretation, painted style"
  else if s = "fantasy" then
    "fantasy landscape, magical lighting, ethereal atmosphere, mystical environment"
  else
    "landscape photography, natural lighting, photorealistic, high detail, sharp focus"

/-- `GPUImageGenerator._create_enhanced_background_prompt`. -/
def createEnhancedBackgroundPrompt (description style : String) : String :=
  backgroundBasePrompt (identifySettingType description) ++ ", " ++ description ++
    ", " ++ backgroundStyleModifier style

/-- Shared part of `GPUImageGenerator._get_detailed_negative_prompt`. -/
def baseNegativePrompt : String :=
  "blurry, low quality, pixelated, distorted, ugly, deformed, bad anatomy, extra limbs, missing limbs, bad proportions, watermark, signature, text, username, logo, copyright, low resolution, jpeg artifacts, noise, grain"

/-- `GPUImageGenerator._get_detailed_negative_prompt`. -/
def detailedNegativePrompt (imageType : String) : String :=
  if imageType = "character" then
    baseNegativePrompt ++ ", multiple people, crowd, background objects, vehicles, buildings, landscape"
  else
    baseNegativePrompt ++ ", people, person, human, character, face, portrait, animals"

/-- `GPUImageGenerator._enhance_image`: sharpness 1.2, contrast 1.1,
colour 1.05 (factors recorded in percent). -/
def enhanceImage (img : PILImage) : PILImage :=
  .enhance "Color" 105 (.enhance "Contrast" 110 (.enhance "Sharpness" 120 img))

/-- Font chosen by the placeholder code: `arial.ttf` at the given size when
the `ImageFont.truetype` call succeeds, the PIL default font otherwise. -/
def placeholderFont (arialOk : Bool) (size : Nat) : String :=
  if arialOk then "arial.ttf:" ++ toString size else "default"

/-- `GPUImageGenerator._create_artistic_character_placeholder` as a symbolic
image: a 512x512 black canvas with a per-row gradient (`int(70+(y/512)*100)`
etc., exact since `y/512` is an exact binary float), a silhouette around
centre (256, 300), and two text labels.  The `description` argument is
ignored, as in the code. -/
def characterPlaceholderImage (arialOk : Bool) : PILImage :=
  .draw
    ((List.range 512).map (fun y =>
        DrawCmd.line 0 y 512 y (70 + y * 100 / 512, 90 + y * 120 / 512, 140 + y * 100 / 512)) ++
      [.ellipse 206 200 306 290 (40, 40, 50),
       .rectangle 216 290 296 420 (50, 50, 60),
       .rectangle 186 320 216 400 (45, 45, 55),
       .rectangle 296 320 326 400 (45, 45, 55),
       .text 100 450 "AI CHARACTER" (placeholderFont arialOk 32) (255, 255, 255),
       .text 150 480 "(Loading...)" (placeholderFont arialOk 32) (200, 200, 200)])
    (.new "RGB" 512 512 (0, 0, 0))

/-- `_create_artistic_character_placeholder` including the final PNG save. -/
def createArtisticCharacterPlaceholder (_description : String) (arialOk : Bool) :
    ImageBytes :=
  ⟨characterPlaceholderImage arialOk⟩

/-- `GPUImageGenerator._create_artistic_background_placeholder` as a symbolic
image: a 768x512 black canvas, a sky gradient for rows 0..255 (the blue
channel `int(235-(y/256)*100)` truncates toward zero, hence the ceiling
division), a ground gradient for rows 256..511, a mountain polygon, and two
text labels.  The `description` argument is ignored, as in the code. -/
def backgroundPlaceholderImage (arialOk : Bool) : PILImage :=
  .draw
    ((List.range 256).map (fun y =>
        DrawCmd.line 0 y 768 y
          (135 + y * 100 / 256, 206 + y * 40 / 256, 235 - (y * 100 + 255) / 256)) ++
      (List.range 256).map (fun i =>
        DrawCmd.line 0 (256 + i) 768 (256 + i)
          (60 + i * 80 / 256, 120 + i * 60 / 256, 40 + i * 20 / 256)) ++
      [.polygon [(0, 200), (150, 120), (300, 180), (450, 100), (600, 160),
                 (768, 140), (768, 256), (0, 256)] (80, 80, 120),
       .text 250 200 "AI BACKGROUND" (placeholderFont arialOk 48) (255, 255, 255),
       .text 300 250 "(Loading...)" (placeholderFont arialOk 48) (220, 220, 220)])
    (.new "RGB" 768 512 (0, 0, 0))

/-- `_create_artistic_background_placeholder` including the final PNG save. -/
def createArtisticBackgroundPlaceholder (_description : String) (arialOk : Bool) :
    ImageBytes :=
  ⟨backgroundPlaceholderImage arialOk⟩

/-- `GPUImageGenerator._create_placeholder`: a grey canvas of the requested
size with the text centred via default-font `textbbox` metrics. -/
def createPlaceholder (text : String) (width height : Nat) : ImageBytes :=
  ⟨.draw [.ctext text (255, 255, 255)] (.new "RGB" width height (120, 120, 120))⟩

/-- `GPUImageGenerator.generate_character_image`.  `available` is
`self.available`, `loadOk` the result of `_load_pipeline`, `pipeExn` whether
the guarded diffusion/post-processing block raised (any such exception is
caught and the placeholder returned). -/
def generateCharacterImage (available loadOk pipeExn : Bool)
    (description style : String) (arialOk : Bool) : ImageBytes :=
  if available && loadOk && !pipeExn then
    ⟨enhanceImage (.diffusion (createEnhancedCharacterPrompt description style)
        (detailedNegativePrompt "character") 25 85 512 512 42)⟩
  else
    createArtisticCharacterPlaceholder description arialOk

/-- `GPUImageGenerator.generate_background_image`. -/
def generateBackgroundImage (available loadOk pipeExn : Bool)
    (description style : String) (arialOk : Bool) : ImageBytes :=
  if available && loadOk && !pipeExn then
    ⟨enhanceImage (.diffusion (createEnhancedBackgroundPrompt description style)
        (detailedNegativePrompt "background") 25 80 768 512 123)⟩
  else
    createArtisticBackgroundPlaceholder description arialOk

/-- `GPUImageGenerator.compose_images`, success path, given the two opened
images.  `int(bg_height * 0.8)` and
`int(char_w * (char_height / char_h))` are exact-rational floor divisions;
`int(bg_width * 0.25)` is exact since 0.25 is a binary float. -/
def composeImages (charImg bgImg : PILImage) : ImageBytes :=
  let c := PILImage.convert "RGBA" charImg
  let b := PILImage.convert "RGBA" bgImg
  let bw := b.size.1
  let bh := b.size.2
  let charH := bh * 8 / 10
  let charW := c.size.1 * charH / c.size.2
  let c2 := PILImage.resize charW charH c
  let cx := bw / 4
  let cy := bh - charH
  ⟨PILImage.convert "RGB" (PILImage.paste c2 cx cy (PILImage.copy b))⟩

/-- `GPUImageGenerator.compose_images` including its exception handler:
when either path fails to open (or any other step raises), the 768x512
"COMPOSED SCENE" placeholder is returned instead. -/
def composeImagesChecked (charImg bgImg : Option PILImage) : ImageBytes :=
  match charImg, bgImg with
  | some c, some b => composeImages c b
  | _, _ => createPlaceholder "COMPOSED SCENE" 768 512

/-! ## `generator/models.py` — `StoryGeneration` and upload paths -/

/-- A file persisted through a Django `FieldFile.save`: its stored name
(as produced by the field's `upload_to` function) and its PNG content. -/
structure SavedFile where
  name : String
  content : ImageBytes
  deriving DecidableEq

/-- The `StoryGeneration` model row, with the fields the generation flow
touches.  Statuses and input methods are the literal strings from
`STATUS_CHOICES` and the `input_method` choices. -/
structure StoryGeneration where
  id : String
  prompt : String
  transcribed_text : String
  input_method : String
  story_text : String
  character_description : String
  background_description : String
  character_image : Option SavedFile
  background_image : Option SavedFile
  composed_image : Option SavedFile
  story_word_count : Nat
  ai_model_used : String
  image_model_used : String
  generation_time : Option Nat
  status : String
  error_message : String
  audio_file : Option String
  deriving DecidableEq

/-- `StoryGeneration.save`: refresh `story_word_count` from
`len(self.story_text.split())` when `story_text` is truthy, then persist. -/
def StoryGeneration.save (st : StoryGeneration) : StoryGeneration :=
  if st.story_text ≠ "" then { st with story_word_count := countWords st.story_text }
  else st

/-- `StoryGeneration.get_input_text`. -/
def StoryGeneration.getInputText (st : StoryGeneration) : String :=
  if st.input_method = "audio" then st.transcribed_text
  else if st.input_method = "both" then pyStrip (st.prompt ++ " " ++ st.transcribed_text)
  else st.prompt

/-- Python `filename.split('.')[-1]`: the suffix after the last dot, or the
whole string when it has no dot. -/
def lastDotComponent (filename : String) : String :=
  let rev := filename.data.reverse
  let ext := rev.takeWhile (fun c => c ≠ '.')
  if ext.length = rev.length then filename else ⟨ext.reverse⟩

/-- `story_image_path(instance, filename)`: the upload path Django applies to
every image saved on a `StoryGeneration` image field — the requested file
name is discarded except for its extension and replaced by a fresh uuid. -/
def storyImagePath (instanceId uuid filename : String) : String :=
  "generated/stories/" ++ instanceId ++ "/" ++ uuid ++ "." ++ lastDotComponent filename

/-! ## `generator/audio_processor.py` — `AudioValidator` -/

/-- `AudioValidator.MAX_FILE_SIZE`. -/
def audioMaxFileSize : Nat := 10 * 1024 * 1024

/-- Supported extensions in `AudioValidator.validate_audio_file`. -/
def supportedAudioExtensions : List String :=
  ["wav", "mp3", "mp4", "m4a", "flac", "ogg", "webm"]

/-- `AudioValidator.validate_audio_file` on an upload of the given size and
(optional, possibly empty) file name. -/
def validateAudioFile (size : Nat) (name : Option String) : Bool × String :=
  if audioMaxFileSize < size then
    (false, "File too large. Maximum size is 10MB")
  else
    match name with
    | some n =>
      if n ≠ "" then
        let ext := lastDotComponent (pyLower n)
        if supportedAudioExtensions.contains ext then (true, "Valid audio file")
        else (false, "Unsupported file format. Supported: wav, mp3, mp4, m4a, flac, ogg, webm")
      else (true, "Valid audio file")
    | none => (true, "Valid audio file")

/-! ## `generator/views.py` — `GenerateStoryView` -/

/-- An uploaded audio file as the view sees it. -/
structure AudioUpload where
  size : Nat
  name : String
  deriving DecidableEq

/-- `GenerateStoryView._handle_audio_input`.  `audioSupported` is
`check_audio_support()`; `transcription` is the outcome of
`_safe_transcribe_audio` (text, or the text of the exception it raised).
Returns the success flag, the updated record, and the number of
transcription attempts made. -/
def handleAudioInput (story : StoryGeneration) (audio : AudioUpload)
    (audioSupported : Bool) (transcription : Except String String) :
    Bool × StoryGeneration × Nat :=
  if 10 * 1024 * 1024 < audio.size then
    (false,
      ({ story with status := "error",
                    error_message := "Audio file too large (max 10MB)" }).save, 0)
  else
    let st1 := ({ story with audio_file := some audio.name,
                             status := "transcribing" }).save
    if !audioSupported then
      (false,
        ({ st1 with status := "error",
                    error_message :=
                      "Audio transcription failed: Audio processing not available" }).save, 0)
    else
      match transcription with
      | .ok t => (true, ({ st1 with transcribed_text := t }).save, 1)
      | .error e =>
        (false,
          ({ st1 with status := "error",
                      error_message := "Audio transcription failed: " ++ e }).save, 1)

/-- The external world of one `_generate_enhanced_story_content` run: the
Ollama availability flag and per-call responses, GPU availability and
per-call pipeline failures, font availability for placeholders, the uuids
the storage layer draws for the three image files, the storage exceptions
(if any) raised while persisting each image, and the elapsed wall-clock
time recorded on completion. -/
structure GenEnv where
  ollamaAvailable : Bool
  storyResp : OllamaResp
  charDescResp : OllamaResp
  sceneDescResp : OllamaResp
  gpuAvailable : Bool
  gpuLoadOk : Bool
  charPipeExn : Bool
  bgPipeExn : Bool
  arialOk : Bool
  uuidChar : String
  uuidBg : String
  uuidComposed : String
  saveCharErr : Option String
  saveBgErr : Option String
  saveComposedErr : Option String
  elapsed : Nat
  deriving DecidableEq

/-- `GenerateStoryView._generate_enhanced_story_content`: the straight-line
generation pipeline with its single try/except.  Any step that raises lands
in the handler, which stores the exception text, sets status `error` and
saves; otherwise the run ends with status `completed` and the elapsed
generation time recorded. -/
def generateEnhancedStoryContent (env : GenEnv) (story : StoryGeneration)
    (length imageStyle : String) : StoryGeneration :=
  let inputText := story.getInputText
  if inputText = "" then
    ({ story with status := "error", error_message := "No input text available" }).save
  else
    let st1 := { story with
      story_text := generateStory env.ollamaAvailable env.storyResp inputText length,
      ai_model_used := "Ollama (llama3.1:8b)" }
    let st2 := { st1 with
      character_description :=
        generateCharacterDescription env.ollamaAvailable env.charDescResp st1.story_text,
      background_description :=
        generateSceneDescription env.ollamaAvailable env.sceneDescResp st1.story_text }
    let charBytes := generateCharacterImage env.gpuAvailable env.gpuLoadOk env.charPipeExn
      st2.character_description imageStyle env.arialOk
    match env.saveCharErr with
    | some m => ({ st2 with status := "error", error_message := m }).save
    | none =>
      let charFile : SavedFile :=
        ⟨storyImagePath st2.id env.uuidChar ("character_" ++ st2.id ++ ".png"), charBytes⟩
      let st3 := { st2 with character_image := some charFile }
      let bgBytes := generateBackgroundImage env.gpuAvailable env.gpuLoadOk env.bgPipeExn
        st3.background_description imageStyle env.arialOk
      match env.saveBgErr with
      | some m => ({ st3 with status := "error", error_message := m }).save
      | none =>
        let bgFile : SavedFile :=
          ⟨storyImagePath st3.id env.uuidBg ("background_" ++ st3.id ++ ".png"), bgBytes⟩
        let st4 := { st3 with background_image := some bgFile }
        match st4.character_image, st4.background_image with
        | some cf, some bf =>
          let composedBytes := composeImagesChecked (some cf.content.toImage)
            (some bf.content.toImage)
          match env.saveComposedErr with
          | some m => ({ st4 with status := "error", error_message := m }).save
          | none =>
            let composedFile : SavedFile :=
              ⟨storyImagePath st4.id env.uuidComposed ("composed_" ++ st4.id ++ ".png"),
               composedBytes⟩
            let st5 := { st4 with composed_image := some composedFile }
            ({ st5 with image_model_used := "Stable Diffusion (" ++ imageStyle ++ ")",
                        status := "completed",
                        generation_time := some env.elapsed }).save
        | _, _ =>
          ({ st4 with image_model_used := "Stable Diffusion (" ++ imageStyle ++ ")",
                      status := "completed",
                      generation_time := some env.elapsed }).save

/-- External inputs of one `GenerateStoryView.post` request beyond the form
fields: database readiness, the uuid primary key of the created row,
audio-library availability, the transcription outcome, and the generation
environment. -/
structure PostEnv where
  tableExists : Bool
  newId : String
  audioSupported : Bool
  transcription : Except String String
  gen : GenEnv

/-- A freshly created `StoryGeneration` row
(`StoryGeneration.objects.create(...)` with field defaults). -/
def newStoryRecord (id prompt inputMethod : String) : StoryGeneration :=
  { id := id, prompt := prompt, transcribed_text := "", input_method := inputMethod,
    story_text := "", character_description := "", background_description := "",
    character_image := none, background_image := none, composed_image := none,
    story_word_count := 0, ai_model_used := "", image_model_used := "",
    generation_time := none, status := "pending", error_message := "",
    audio_file := none }

/-- `GenerateStoryView.post`.  Returns the `StoryGeneration` row it created
(if any) and the name of the view it redirects to (`"index"` or
`"result"`).  `rawPrompt`, `audio`, `storyLength` and `imageStyle` are the
form fields. -/
def postView (env : PostEnv) (rawPrompt : String) (audio : Option AudioUpload)
    (storyLength imageStyle : String) : Option StoryGeneration × String :=
  if !env.tableExists then (none, "index")
  else
    let prompt := pyStrip rawPrompt
    if prompt = "" && audio.isNone then (none, "index")
    else
      let story := newStoryRecord env.newId prompt
        (if prompt ≠ "" && audio.isNone then "text"
         else if audio.isSome && prompt = "" then "audio"
         else "both")
      let afterAudio : Bool × StoryGeneration :=
        match audio with
        | some a =>
          let r := handleAudioInput story a env.audioSupported env.transcription
          (r.1, r.2.1)
        | none => (true, story)
      if !afterAudio.1 then (some afterAudio.2, "index")
      else
        let st2 := ({ afterAudio.2 with status := "processing" }).save
        let r := generateEnhancedStoryContent env.gen st2 storyLength imageStyle
        if r.status = "error" then (some r, "index") else (some r, "result")

/-! ## Spec-side definitions and sample inputs -/

/-- Modelled from the spec claim wording: "the description selected by the
first matching keyword rule over the lowercased story text" — each rule is a
pair of keywords and the description it selects, with a default when no
rule matches.  Compared against the source fallback functions. -/
def keywordSelectSpec (rules : List ((String × String) × String)) (dflt : String)
    (story : String) : String :=
  let sl := pyLower story
  match rules.find? (fun r => pyContains r.1.1 sl || pyContains r.1.2 sl) with
  | some r => r.2
  | none => dflt

/-- The keyword rules `_fallback_character_description` actually implements. -/
def characterKeywordRules : List ((String × String) × String) :=
  [(("knight", "sword"), knightCharacterDescription),
   (("wizard", "magic"), wizardCharacterDescription),
   (("space", "star"), spaceCharacterDescription)]

/-- The keyword rules `_fallback_scene_description` actually implements. -/
def sceneKeywordRules : List ((String × String) × String) :=
  [(("forest", "tree"), forestSceneDescription),
   (("castle", "tower"), castleSceneDescription),
   (("space", "star"), spaceSceneDescription)]

/-- Tracks the word/space state of `cwAux` across an input block: the state
after consuming the block is `true` exactly when its last character is not
whitespace (starting from `b` when the block is empty). -/
def wordState (b : Bool) : List Char → Bool
  | [] => b
  | c :: cs => wordState (!pySpace c) cs

/-- A benign generation environment used to instantiate theorems with
hypotheses: Ollama and the GPU are both unavailable, storage succeeds,
and the uuid supply is fixed. -/
def sampleGenEnv : GenEnv :=
  { ollamaAvailable := false, storyResp := .exn, charDescResp := .exn,
    sceneDescResp := .exn, gpuAvailable := false, gpuLoadOk := false,
    charPipeExn := false, bgPipeExn := false, arialOk := false,
    uuidChar := "uuid-char", uuidBg := "uuid-bg", uuidComposed := "uuid-comp",
    saveCharErr := none, saveBgErr := none, saveComposedErr := none,
    elapsed := 3 }

/-- A freshly created text-input story row used to instantiate theorems. -/
def sampleStory : StoryGeneration :=
  { newStoryRecord "s1" "hello" "text" with status := "processing" }

/-- A post-request environment used to instantiate theorems. -/
def samplePostEnv : PostEnv :=
  { tableExists := true, newId := "s1", audioSupported := false,
    transcription := .error "no backend", gen := sampleGenEnv }

/-! ## Word-count lemmas -/

theorem cwAux_append (xs : List Char) :
    ∀ (b : Bool) (ys : List Char),
      cwAux b (xs ++ ys) = cwAux b xs + cwAux (wordState b xs) ys := by
  induction xs with
  | nil => intro b ys; simp [cwAux, wordState]
  | cons c cs ih =>
    intro b ys
    by_cases h : pySpace c <;>
      simp [cwAux, wordState, h, ih] <;> omega

theorem cwAux_true_le (ys : List Char) : ∀ b, cwAux true ys ≤ cwAux b ys := by
  induction ys with
  | nil => intro b; simp [cwAux]
  | cons c cs ih =>
    intro b
    by_cases h : pySpace c <;> cases b <;> simp [cwAux, h] <;> omega

theorem cwAux_append_ge (xs ys : List Char) (b : Bool) :
    cwAux true ys ≤ cwAux b (xs ++ ys) := by
  rw [cwAux_append]
  have := cwAux_true_le ys (wordState b xs)
  omega

set_option maxRecDepth 40000

theorem countWords_fallback_gt (prompt : String) :
    100 < countWords (generateFallbackStory prompt) := by
  unfold generateFallbackStory countWords
  simp only [String.data_append, List.append_assoc]
  rw [cwAux_append]
  have hA : cwAux false fallbackStoryA.data = 10 := by decide
  have hB : cwAux true fallbackStoryB.data = 144 := by decide
  have hC : cwAux true fallbackStoryC.data = 52 := by decide
  have t1 := cwAux_true_le
    ((pyLower prompt).data ++
      (fallbackStoryB.data ++ ((pyLower prompt).data ++ fallbackStoryC.data)))
    (wordState false fallbackStoryA.data)
  have t2 := cwAux_append_ge (pyLower prompt).data
    (fallbackStoryB.data ++ ((pyLower prompt).data ++ fallbackStoryC.data)) true
  have t3 := cwAux_append fallbackStoryB.data true
    ((pyLower prompt).data ++ fallbackStoryC.data)
  have t4 := cwAux_append_ge (pyLower prompt).data fallbackStoryC.data
    (wordState true fallbackStoryB.data)
  omega

theorem countWords_generateStory_gt (available : Bool) (resp : OllamaResp)
    (prompt length : String) :
    100 < countWords (generateStory available resp prompt length) := by
  unfold generateStory generateStoryCounted
  split
  · exact countWords_fallback_gt prompt
  · dsimp only
    split
    · next h =>
      simp only [Bool.and_eq_true, decide_eq_true_eq, ne_eq] at h
      exact h.2
    · exact countWords_fallback_gt prompt

theorem generateStory_ne_empty (available : Bool) (resp : OllamaResp)
    (prompt length : String) :
    generateStory available resp prompt length ≠ "" := by
  intro h
  have hc := countWords_generateStory_gt available resp prompt length
  rw [h] at hc
  have : countWords "" = 0 := rfl
  omega

theorem fallbackCharacterDescription_ne_empty (story : String) :
    fallbackCharacterDescription story ≠ "" := by
  unfold fallbackCharacterDescription
  dsimp only
  split_ifs <;> decide

theorem fallbackSceneDescription_ne_empty (story : String) :
    fallbackSceneDescription story ≠ "" := by
  unfold fallbackSceneDescription
  dsimp only
  split_ifs <;> decide

theorem generateCharacterDescription_ne_empty (available : Bool)
    (resp : OllamaResp) (story : String) :
    generateCharacterDescription available resp story ≠ "" := by
  unfold generateCharacterDescription generateCharacterDescriptionCounted
  split
  · exact fallbackCharacterDescription_ne_empty story
  · simp only
    split
    · next h => simpa using h
    · exact fallbackCharacterDescription_ne_empty story

theorem generateSceneDescription_ne_empty (available : Bool)
    (resp : OllamaResp) (story : String) :
    generateSceneDescription available resp story ≠ "" := by
  unfold generateSceneDescription generateSceneDescriptionCounted
  split
  · exact fallbackSceneDescription_ne_empty story
  · simp only
    split
    · next h => simpa using h
    · exact fallbackSceneDescription_ne_empty story

/-! ## `StoryGeneration.save` field lemmas -/

@[simp] theorem save_status (st : StoryGeneration) : st.save.status = st.status := by
  unfold StoryGeneration.save; split <;> rfl

@[simp] theorem save_story_text (st : StoryGeneration) :
    st.save.story_text = st.story_text := by
  unfold StoryGeneration.save; split <;> rfl

@[simp] theorem save_character_description (st : StoryGeneration) :
    st.save.character_description = st.character_description := by
  unfold StoryGeneration.save; split <;> rfl

@[simp] theorem save_background_description (st : StoryGeneration) :
    st.save.background_description = st.background_description := by
  unfold StoryGeneration.save; split <;> rfl

@[simp] theorem save_character_image (st : StoryGeneration) :
    st.save.character_image = st.character_image := by
  unfold StoryGeneration.save; split <;> rfl

@[simp] theorem save_background_image (st : StoryGeneration) :
    st.save.background_image = st.background_image := by
  unfold StoryGeneration.save; split <;> rfl

@[simp] theorem save_composed_image (st : StoryGeneration) :
    st.save.composed_image = st.composed_image := by
  unfold StoryGeneration.save; split <;> rfl

@[simp] theorem save_generation_time (st : StoryGeneration) :
    st.save.generation_time = st.generation_time := by
  unfold StoryGeneration.save; split <;> rfl

@[simp] theorem save_error_message (st : StoryGeneration) :
    st.save.error_message = st.error_message := by
  unfold StoryGeneration.save; split <;> rfl

@[simp] theorem save_id (st : StoryGeneration) : st.save.id = st.id := by
  unfold StoryGeneration.save; split <;> rfl

@[simp] theorem save_input_method (st : StoryGeneration) :
    st.save.input_method = st.input_method := by
  unfold StoryGeneration.save; split <;> rfl

@[simp] theorem save_prompt (st : StoryGeneration) : st.save.prompt = st.prompt := by
  unfold StoryGeneration.save; split <;> rfl

@[simp] theorem save_transcribed_text (st : StoryGeneration) :
    st.save.transcribed_text = st.transcribed_text := by
  unfold StoryGeneration.save; split <;> rfl

theorem fallbackCharacterDescription_eq_spec (s : String) :
    fallbackCharacterDescription s =
      keywordSelectSpec characterKeywordRules adventurerCharacterDescription s := by
  unfold fallbackCharacterDescription keywordSelectSpec characterKeywordRules
  dsimp only [List.find?]
  cases h1 : pyContains "knight" (pyLower s) || pyContains "sword" (pyLower s) <;>
    cases h2 : pyContains "wizard" (pyLower s) || pyContains "magic" (pyLower s) <;>
      cases h3 : pyContains "space" (pyLower s) || pyContains "star" (pyLower s) <;> rfl

theorem fallbackSceneDescription_eq_spec (s : String) :
    fallbackSceneDescription s =
      keywordSelectSpec sceneKeywordRules landscapeSceneDescription s := by
  unfold fallbackSceneDescription keywordSelectSpec sceneKeywordRules
  dsimp only [List.find?]
  cases h1 : pyContains "forest" (pyLower s) || pyContains "tree" (pyLower s) <;>
    cases h2 : pyContains "castle" (pyLower s) || pyContains "tower" (pyLower s) <;>
      cases h3 : pyContains "space" (pyLower s) || pyContains "star" (pyLower s) <;> rfl

theorem handleAudioInput_input_method (story : StoryGeneration) (audio : AudioUpload)
    (sup : Bool) (tr : Except String String) :
    (handleAudioInput story audio sup tr).2.1.input_method = story.input_method := by
  unfold handleAudioInput
  split
  · simp
  · dsimp only
    split
    · simp
    · split <;> simp

theorem pipeline_input_method (env : GenEnv) (story : StoryGeneration)
    (length imageStyle : String) :
    (generateEnhancedStoryContent env story length imageStyle).input_method =
      story.input_method := by
  unfold generateEnhancedStoryContent
  dsimp only
  split
  · simp
  · split
    · simp
    · split
      · simp
      · split <;> simp

theorem postView_isSome (env : PostEnv) (rawPrompt : String)
    (audio : Option AudioUpload) (storyLength imageStyle : String)
    (h : env.tableExists = true) :
    (postView env rawPrompt audio storyLength imageStyle).1.isSome =
      (!(pyStrip rawPrompt == "") || audio.isSome) := by
  rcases audio with _ | a <;> by_cases hp : pyStrip rawPrompt = ""
  · simp [postView, h, hp]
  · simp [postView, h, hp]
    split <;> first | exact hp | simp [hp]
  · simp [postView, h, hp]
    split
    · first | exact hp | simp [hp]
    · split <;> first | exact hp | simp [hp]
  · simp [postView, h, hp]
    split
    · first | exact hp | simp [hp]
    · split <;> first | exact hp | simp [hp]

theorem postView_input_method (env : PostEnv) (rawPrompt : String)
    (audio : Option AudioUpload) (storyLength imageStyle : String)
    (st : StoryGeneration) (h : env.tableExists = true)
    (hpost : (postView env rawPrompt audio storyLength imageStyle).1 = some st) :
    st.input_method =
      (if pyStrip rawPrompt ≠ "" && audio.isNone then "text"
       else if audio.isSome && pyStrip rawPrompt == "" then "audio"
       else "both") := by
  rcases audio with _ | a <;> by_cases hp : pyStrip rawPrompt = ""
  · simp [postView, h, hp] at hpost
  · simp only [postView, h, hp] at hpost
    simp [hp] at hpost
    split at hpost <;>
      (simp at hpost; subst hpost;
       rw [pipeline_input_method, save_input_method]; simp [newStoryRecord, hp])
  · simp only [postView, h, hp] at hpost
    simp [hp] at hpost
    split at hpost
    · simp at hpost
      subst hpost
      rw [handleAudioInput_input_method]
      simp [newStoryRecord, hp]
    · split at hpost <;>
        (simp at hpost; subst hpost;
         rw [pipeline_input_method, save_input_method, handleAudioInput_input_method];
         simp [newStoryRecord, hp])
  · simp only [postView, h, hp] at hpost
    simp [hp] at hpost
    split at hpost
    · simp at hpost
      subst hpost
      rw [handleAudioInput_input_method]
      simp [newStoryRecord, hp]
    · split at hpost <;>
        (simp at hpost; subst hpost;
         rw [pipeline_input_method, save_input_method, handleAudioInput_input_method];
         simp [newStoryRecord, hp])

/-! ## Claim theorems -/

/-- C3: `_generate_enhanced_story_content` always terminates with the story
record's status equal to `completed` or `error` (never left at
`processing`): on the success path the status is `completed` and the elapsed
generation time is recorded; if any step raises, the status is `error` and
`error_message` holds the exception's text (the explicit "No input text
available" raise, or the storage exception from one of the image saves), and
the record is saved. -/
theorem C3_pipeline_status_completed_or_error (env : GenEnv)
    (story : StoryGeneration) (length imageStyle : String) :
    ((generateEnhancedStoryContent env story length imageStyle).status = "completed" ∧
      (generateEnhancedStoryContent env story length imageStyle).generation_time =
        some env.elapsed) ∨
    ((generateEnhancedStoryContent env story length imageStyle).status = "error" ∧
      ((generateEnhancedStoryContent env story length imageStyle).error_message =
          "No input text available" ∨
        env.saveCharErr =
          some (generateEnhancedStoryContent env story length imageStyle).error_message ∨
        env.saveBgErr =
          some (generateEnhancedStoryContent env story length imageStyle).error_message ∨
        env.saveComposedErr =
          some (generateEnhancedStoryContent env story length imageStyle).error_message)) := by
  unfold generateEnhancedStoryContent
  dsimp only
  split
  · right; simp
  · split
    · next m heq => right; simp [heq]
    · split
      · next m heq => right; simp [heq]
      · split
        · next m heq => right; simp [heq]
        · left; simp

/-- C1 (amended): every `_generate_enhanced_story_content` run that ends with
status `completed` leaves the record with a non-empty generated story text,
non-empty character and background descriptions, three persisted image files
(two rendered images plus a composed scene built from exactly those two),
and a recorded generation time.  The view requests the file names
`character_<id>.png`, `background_<id>.png` and `composed_<id>.png`, but the
persisted names are the ones `story_image_path` produces:
`generated/stories/<id>/<uuid>.png`. -/
theorem C1_completed_record_contents (env : GenEnv) (story : StoryGeneration)
    (length imageStyle : String) (r : StoryGeneration)
    (hr : generateEnhancedStoryContent env story length imageStyle = r)
    (hst : r.status = "completed") :
    r.story_text ≠ "" ∧
    r.character_description ≠ "" ∧
    r.background_description ≠ "" ∧
    r.character_image.map SavedFile.name =
      some (storyImagePath r.id env.uuidChar ("character_" ++ r.id ++ ".png")) ∧
    r.background_image.map SavedFile.name =
      some (storyImagePath r.id env.uuidBg ("background_" ++ r.id ++ ".png")) ∧
    r.composed_image.map SavedFile.name =
      some (storyImagePath r.id env.uuidComposed ("composed_" ++ r.id ++ ".png")) ∧
    (∃ cf bf comf, r.character_image = some cf ∧ r.background_image = some bf ∧
      r.composed_image = some comf ∧
      comf.content = composeImagesChecked (some cf.content.toImage)
        (some bf.content.toImage)) ∧
    r.generation_time = some env.elapsed := by
  subst hr
  unfold generateEnhancedStoryContent
  dsimp only
  revert hst
  unfold generateEnhancedStoryContent
  dsimp only
  split
  · intro hst; exact absurd hst (by simp)
  · split
    · intro hst; exact absurd hst (by simp)
    · split
      · intro hst; exact absurd hst (by simp)
      · split
        · intro hst; exact absurd hst (by simp)
        · intro _
          simp only [save_story_text, save_character_description, save_background_description,
            save_character_image, save_background_image, save_composed_image,
            save_generation_time, save_id]
          refine ⟨generateStory_ne_empty _ _ _ _, generateCharacterDescription_ne_empty _ _ _,
            generateSceneDescription_ne_empty _ _ _, rfl, rfl, rfl,
            ⟨_, _, _, rfl, rfl, rfl, rfl⟩, trivial⟩

/-- Witness for C1: a concrete completed run (Ollama and GPU unavailable,
storage healthy) with its recorded fields. -/
theorem C1_completed_record_contents_witness :
    (generateEnhancedStoryContent sampleGenEnv sampleStory "medium" "realistic").story_text
        ≠ "" ∧
    (generateEnhancedStoryContent sampleGenEnv sampleStory "medium" "realistic").generation_time
        = some 3 :=
  ⟨(C1_completed_record_contents sampleGenEnv sampleStory "medium" "realistic" _ rfl
      (by decide)).1,
   (C1_completed_record_contents sampleGenEnv sampleStory "medium" "realistic" _ rfl
      (by decide)).2.2.2.2.2.2.2⟩

/-- Counterexample to C1 as stated: in a concrete completed run with story id
`s1`, the three images are persisted under the uuid-based names produced by
`story_image_path`, not under `character_s1.png` / `background_s1.png` /
`composed_s1.png` as the claim asserts. -/
theorem C1_stored_filenames_counterexample :
    (generateEnhancedStoryContent sampleGenEnv sampleStory "medium" "realistic").status
        = "completed" ∧
    (generateEnhancedStoryContent sampleGenEnv sampleStory "medium"
        "realistic").character_image.map SavedFile.name
      = some "generated/stories/s1/uuid-char.png" ∧
    (generateEnhancedStoryContent sampleGenEnv sampleStory "medium"
        "realistic").character_image.map SavedFile.name ≠ some "character_s1.png" ∧
    (generateEnhancedStoryContent sampleGenEnv sampleStory "medium"
        "realistic").background_image.map SavedFile.name ≠ some "background_s1.png" ∧
    (generateEnhancedStoryContent sampleGenEnv sampleStory "medium"
        "realistic").composed_image.map SavedFile.name ≠ some "composed_s1.png" := by
  exact ⟨by decide, by decide, by decide, by decide, by decide⟩

/-- C2: when the wrapped external service is unavailable (the `available`
flag is `false`), every generation operation returns its template fallback
instead of failing: `generate_story` returns the fixed fallback story built
from the lowercased prompt without any HTTP call, and the two image
generators return the deterministic placeholder PNG bytes, which do not
depend on the description or style.  All modelled operations are total Lean
functions, so none raises in this case. -/
theorem C2_unavailable_template_fallbacks (resp : OllamaResp)
    (prompt length : String) (loadOk pipeExn : Bool)
    (charDesc bgDesc style : String) (arialOk : Bool) :
    generateStory false resp prompt length = generateFallbackStory prompt ∧
    generateStoryCounted false resp prompt length = (generateFallbackStory prompt, 0) ∧
    generateCharacterImage false loadOk pipeExn charDesc style arialOk =
      createArtisticCharacterPlaceholder charDesc arialOk ∧
    generateCharacterImage false loadOk pipeExn charDesc style arialOk =
      ⟨characterPlaceholderImage arialOk⟩ ∧
    generateBackgroundImage false loadOk pipeExn bgDesc style arialOk =
      ⟨backgroundPlaceholderImage arialOk⟩ :=
  ⟨rfl, rfl, rfl, rfl, rfl⟩

/-- C4: when the database is ready, `GenerateStoryView.post` creates a
`StoryGeneration` record exactly when the stripped text prompt is non-empty
or an audio file is attached, and otherwise redirects to the index with no
record; the created record's `input_method` is `text` when only a prompt is
given, `audio` when only audio is given, and `both` when both are given;
and `get_input_text` returns respectively the prompt, the transcribed text,
or the space-joined concatenation of prompt and transcription, stripped. -/
theorem C4_post_record_creation (env : PostEnv) (rawPrompt : String)
    (audio : Option AudioUpload) (storyLength imageStyle : String)
    (st : StoryGeneration) (h : env.tableExists = true) :
    (pyStrip rawPrompt = "" ∧ audio = none →
      postView env rawPrompt audio storyLength imageStyle = (none, "index")) ∧
    ((postView env rawPrompt audio storyLength imageStyle).1.isSome ↔
      (pyStrip rawPrompt ≠ "" ∨ audio ≠ none)) ∧
    ((postView env rawPrompt audio storyLength imageStyle).1 = some st →
      st.input_method =
        (if pyStrip rawPrompt ≠ "" && audio.isNone then "text"
         else if audio.isSome && pyStrip rawPrompt == "" then "audio"
         else "both")) ∧
    (st.input_method = "text" → st.getInputText = st.prompt) ∧
    (st.input_method = "audio" → st.getInputText = st.transcribed_text) ∧
    (st.input_method = "both" →
      st.getInputText = pyStrip (st.prompt ++ " " ++ st.transcribed_text)) := by
  refine ⟨?_, ?_,
    postView_input_method env rawPrompt audio storyLength imageStyle st h,
    ?_, ?_, ?_⟩
  · rintro ⟨hp, ha⟩
    subst ha
    simp [postView, h, hp]
  · rw [show (postView env rawPrompt audio storyLength imageStyle).1.isSome =
        (!(pyStrip rawPrompt == "") || audio.isSome) from
      postView_isSome env rawPrompt audio storyLength imageStyle h]
    rcases audio with _ | a <;> by_cases hp : pyStrip rawPrompt = "" <;> simp [hp]
  · intro hm; simp [StoryGeneration.getInputText, hm]
  · intro hm; simp [StoryGeneration.getInputText, hm]
  · intro hm; simp [StoryGeneration.getInputText, hm]

/-- Witness for C4: with a ready database, prompt "hi" and no audio, a
record is created, and a text-method record's input text is its prompt. -/
theorem C4_post_record_creation_witness :
    ((postView samplePostEnv "hi" none "medium" "realistic").1.isSome ↔
      (pyStrip "hi" ≠ "" ∨ (none : Option AudioUpload) ≠ none)) ∧
    ((newStoryRecord "w" "p" "text").input_method = "text" →
      (newStoryRecord "w" "p" "text").getInputText = (newStoryRecord "w" "p" "text").prompt) :=
  ⟨(C4_post_record_creation samplePostEnv "hi" none "medium" "realistic"
      (newStoryRecord "w" "p" "text") rfl).2.1,
   (C4_post_record_creation samplePostEnv "hi" none "medium" "realistic"
      (newStoryRecord "w" "p" "text") rfl).2.2.2.1⟩

/-- C5 (amended): the character and background visual descriptions are
derived from the generated story text, not from the original user prompt —
in every completed run they equal the description generators applied to the
record's own `story_text`.  In fallback mode each generator returns the
description selected by the first matching keyword rule over the lowercased
story text, but the two generators use different rule lists: the character
rules are knight/sword, wizard/magic, space/star with the adventurer
default, while the scene rules are forest/tree, castle/tower, space/star
with the landscape default. -/
theorem C5_descriptions_from_story_text (env : GenEnv) (story : StoryGeneration)
    (length imageStyle : String) (r : StoryGeneration)
    (hr : generateEnhancedStoryContent env story length imageStyle = r)
    (hst : r.status = "completed") :
    r.character_description =
      generateCharacterDescription env.ollamaAvailable env.charDescResp r.story_text ∧
    r.background_description =
      generateSceneDescription env.ollamaAvailable env.sceneDescResp r.story_text ∧
    (∀ (resp : OllamaResp) (s : String),
      generateCharacterDescription false resp s = fallbackCharacterDescription s ∧
      generateSceneDescription false resp s = fallbackSceneDescription s) ∧
    (∀ s : String, fallbackCharacterDescription s =
      keywordSelectSpec characterKeywordRules adventurerCharacterDescription s) ∧
    (∀ s : String, fallbackSceneDescription s =
      keywordSelectSpec sceneKeywordRules landscapeSceneDescription s) := by
  subst hr
  refine ⟨?_, ?_, fun resp s => ⟨rfl, rfl⟩,
    fallbackCharacterDescription_eq_spec, fallbackSceneDescription_eq_spec⟩ <;>
  · revert hst
    unfold generateEnhancedStoryContent
    dsimp only
    split
    · intro hst; exact absurd hst (by simp)
    · split
      · intro hst; exact absurd hst (by simp)
      · split
        · intro hst; exact absurd hst (by simp)
        · split
          · intro hst; exact absurd hst (by simp)
          · intro _
            simp only [save_story_text, save_character_description,
              save_background_description]

/-- Witness for C5: in a concrete completed fallback run the descriptions
are computed from the record's own story text, and the scene fallback obeys
its forest/tree rule list. -/
theorem C5_descriptions_from_story_text_witness :
    (generateEnhancedStoryContent sampleGenEnv sampleStory "medium"
        "realistic").character_description =
      generateCharacterDescription false .exn
        (generateEnhancedStoryContent sampleGenEnv sampleStory "medium"
          "realistic").story_text ∧
    fallbackSceneDescription "An old tree." =
      keywordSelectSpec sceneKeywordRules landscapeSceneDescription "An old tree." :=
  ⟨(C5_descriptions_from_story_text sampleGenEnv sampleStory "medium" "realistic" _ rfl
      (by decide)).1,
   (C5_descriptions_from_story_text sampleGenEnv sampleStory "medium" "realistic" _ rfl
      (by decide)).2.2.2.2 "An old tree."⟩

/-- Counterexample to C5 as stated: the story "An old tree." contains none
of the claimed keywords knight/sword, wizard/magic, space/star, so under the
claim's rule list the fallback scene description would be the default
landscape description; the code instead returns the forest description,
because `_fallback_scene_description` keys on forest/tree, castle/tower,
space/star. -/
theorem C5_scene_rules_counterexample :
    pyContains "knight" (pyLower "An old tree.") = false ∧
    pyContains "sword" (pyLower "An old tree.") = false ∧
    pyContains "wizard" (pyLower "An old tree.") = false ∧
    pyContains "magic" (pyLower "An old tree.") = false ∧
    pyContains "space" (pyLower "An old tree.") = false ∧
    pyContains "star" (pyLower "An old tree.") = false ∧
    generateSceneDescription false .exn "An old tree." ≠ landscapeSceneDescription ∧
    generateSceneDescription false .exn "An old tree." = forestSceneDescription := by
  decide

/-- C6: for readable character and background images (positive character
height, as a decodable image always has), `compose_images` returns a
composed scene with the background's pixel dimensions, in which the
character is resized to 80% of the background height with the width scaled
by the same ratio and pasted at x = 25% of the background width,
bottom-aligned (y = background height minus resized character height); when
either image cannot be opened, the 768x512 "COMPOSED SCENE" placeholder is
returned instead of an exception propagating. -/
theorem C6_compose_geometry (cp bp : String) (cw ch bw bh : Nat)
    (hch : 0 < ch) :
    composeImages (.fromFile cp cw ch) (.fromFile bp bw bh) =
      ⟨.convert "RGB"
        (.paste
          (.resize (cw * (bh * 8 / 10) / ch) (bh * 8 / 10)
            (.convert "RGBA" (.fromFile cp cw ch)))
          (bw / 4) (bh - bh * 8 / 10)
          (.copy (.convert "RGBA" (.fromFile bp bw bh))))⟩ ∧
    (composeImages (.fromFile cp cw ch) (.fromFile bp bw bh)).size = (bw, bh) ∧
    bh * 8 / 10 ≤ bh ∧
    (∀ b : Option PILImage,
      composeImagesChecked none b = createPlaceholder "COMPOSED SCENE" 768 512) ∧
    (∀ c : Option PILImage,
      composeImagesChecked c none = createPlaceholder "COMPOSED SCENE" 768 512) ∧
    (createPlaceholder "COMPOSED SCENE" 768 512).size = (768, 512) := by
  refine ⟨rfl, rfl, by omega, ?_, ?_, rfl⟩
  · intro b; cases b <;> rfl
  · intro c; cases c <;> rfl

/-- Witness for C6: a 512x512 character composed onto a 768x512 background
keeps the background's size, and the failure placeholder is 768x512. -/
theorem C6_compose_geometry_witness :
    (composeImages (.fromFile "c.png" 512 512) (.fromFile "b.png" 768 512)).size
      = (768, 512) ∧
    (createPlaceholder "COMPOSED SCENE" 768 512).size = (768, 512) :=
  ⟨(C6_compose_geometry "c.png" "b.png" 512 512 768 512 (by decide)).2.1,
   (C6_compose_geometry "c.png" "b.png" 512 512 768 512 (by decide)).2.2.2.2.2⟩

/-- C7: no generation operation retries a failed external call.  Each of
the story, character-description and scene-description operations issues at
most one HTTP POST to the Ollama chat endpoint; `_call_ollama` returns the
empty string on an exception or any non-200 status; and whenever the call
comes back empty, the operation returns its template fallback rather than
calling again. -/
theorem C7_no_retry_single_post (available : Bool) (resp : OllamaResp)
    (prompt length descStory : String) :
    (generateStoryCounted available resp prompt length).2 ≤ 1 ∧
    (generateCharacterDescriptionCounted available resp descStory).2 ≤ 1 ∧
    (generateSceneDescriptionCounted available resp descStory).2 ≤ 1 ∧
    (callOllama .exn).1 = "" ∧
    (∀ status content, status ≠ 200 → (callOllama (.reply status content)).1 = "") ∧
    ((callOllama resp).1 = "" →
      generateStory available resp prompt length = generateFallbackStory prompt ∧
      generateCharacterDescription available resp descStory =
        fallbackCharacterDescription descStory ∧
      generateSceneDescription available resp descStory =
        fallbackSceneDescription descStory) := by
  refine ⟨?_, ?_, ?_, rfl, ?_, ?_⟩
  · unfold generateStoryCounted
    split
    · simp
    · dsimp only; split <;> cases resp <;> simp [callOllama]
  · unfold generateCharacterDescriptionCounted
    split
    · simp
    · cases resp <;> simp [callOllama]
  · unfold generateSceneDescriptionCounted
    split
    · simp
    · cases resp <;> simp [callOllama]
  · intro status content h
    unfold callOllama
    simp [h]
  · intro h
    refine ⟨?_, ?_, ?_⟩
    · unfold generateStory generateStoryCounted
      split
      · rfl
      · dsimp only; simp [h]
    · unfold generateCharacterDescription generateCharacterDescriptionCounted
      split
      · rfl
      · dsimp only; simp [h]
    · unfold generateSceneDescription generateSceneDescriptionCounted
      split
      · rfl
      · dsimp only; simp [h]

/-- Witness for C7: a concrete failed call (HTTP 500) issues exactly one
POST, yields the empty string, and the story operation falls back to the
template. -/
theorem C7_no_retry_single_post_witness :
    (generateStoryCounted true (.reply 500 "oops") "p" "medium").2 ≤ 1 ∧
    (callOllama (.reply 500 "oops")).1 = "" ∧
    generateStory true (.reply 500 "oops") "p" "medium" = generateFallbackStory "p" :=
  ⟨(C7_no_retry_single_post true (.reply 500 "oops") "p" "medium" "s").1,
   (C7_no_retry_single_post true (.reply 500 "oops") "p" "medium" "s").2.2.2.2.1 500 "oops"
     (by decide),
   ((C7_no_retry_single_post true (.reply 500 "oops") "p" "medium" "s").2.2.2.2.2
     (by decide)).1⟩

/-- C8: after every save with a non-empty `story_text`, `story_word_count`
equals `len(story_text.split())`; a save with empty `story_text` leaves the
count unchanged, so a stale count persists after the text is cleared, as the
concrete record with count 7 and empty text shows. -/
theorem C8_save_refreshes_word_count :
    (∀ st : StoryGeneration,
      st.save.story_word_count =
        if st.story_text = "" then st.story_word_count else countWords st.story_text) ∧
    ({ newStoryRecord "x" "p" "text" with
        story_word_count := 7 }).save.story_word_count = 7 := by
  constructor
  · intro st
    unfold StoryGeneration.save
    by_cases h : st.story_text = "" <;> simp [h]
  · decide

/-- C9: `generate_story` always returns a string of more than 100
whitespace-separated words — an Ollama reply is accepted only when it has
more than 100 words, and the fallback template exceeds 100 words for every
prompt. -/
theorem C9_story_exceeds_100_words (available : Bool) (resp : OllamaResp)
    (prompt length : String) :
    100 < countWords (generateStory available resp prompt length) :=
  countWords_generateStory_gt available resp prompt length

/-- C10: an uploaded audio file strictly larger than 10*1024*1024 bytes
makes `_handle_audio_input` set status `error` with message "Audio file too
large (max 10MB)" and return `False` with no transcription attempt, and
`AudioValidator.validate_audio_file` rejects the same upload. -/
theorem C10_audio_over_10mb_rejected (story : StoryGeneration)
    (audio : AudioUpload) (audioSupported : Bool)
    (transcription : Except String String)
    (h : 10 * 1024 * 1024 < audio.size) :
    (handleAudioInput story audio audioSupported transcription).1 = false ∧
    (handleAudioInput story audio audioSupported transcription).2.2 = 0 ∧
    (handleAudioInput story audio audioSupported transcription).2.1.status = "error" ∧
    (handleAudioInput story audio audioSupported transcription).2.1.error_message =
      "Audio file too large (max 10MB)" ∧
    (validateAudioFile audio.size (some audio.name)).1 = false := by
  refine ⟨?_, ?_, ?_, ?_, ?_⟩ <;>
    simp only [handleAudioInput, validateAudioFile, audioMaxFileSize] <;> simp [h]

/-- Witness for C10: a 10MB-plus-one-byte wav upload is rejected without
transcription. -/
theorem C10_audio_over_10mb_rejected_witness :
    (handleAudioInput (newStoryRecord "s2" "" "audio") ⟨10485761, "a.wav"⟩ true
      (.ok "hi")).1 = false ∧
    (handleAudioInput (newStoryRecord "s2" "" "audio") ⟨10485761, "a.wav"⟩ true
      (.ok "hi")).2.2 = 0 ∧
    (handleAudioInput (newStoryRecord "s2" "" "audio") ⟨10485761, "a.wav"⟩ true
      (.ok "hi")).2.1.status = "error" ∧
    (handleAudioInput (newStoryRecord "s2" "" "audio") ⟨10485761, "a.wav"⟩ true
      (.ok "hi")).2.1.error_message = "Audio file too large (max 10MB)" ∧
    (validateAudioFile 10485761 (some "a.wav")).1 = false :=
  C10_audio_over_10mb_rejected (newStoryRecord "s2" "" "audio") ⟨10485761, "a.wav"⟩ true
    (.ok "hi") (by decide)

end StoryForge
